import Mathlib

/-!
Shallow embedding of `src/am_rewind/throttledclientsession.py`
(class `ThrottledClientSession`).

Modelling conventions:
* Python floats (times, rates) are modelled as rationals `ℚ`; the one
  transcendental operation, `math.log`, is modelled as `Real.log`.
* A compiled regular expression is used by the source only through
  `pattern.match(url) is not None` (a match anchored at position 0), so it is
  embedded as the Boolean predicate `String → Bool` it denotes.
* Fallible code returns `Except String _`; a raised `ZeroDivisionError` in the
  `rate` property is modelled as `none` and propagates through `stats_dict`
  into `reset_counters`, which then modifies nothing.
* The mutable session object is a `Session` record threaded explicitly.
-/

/-- The recognized HTTP methods: the `HTTPmethod` Literal type of the source. -/
def httpMethods : List String :=
  ["GET", "POST", "PUT", "DELETE", "HEAD", "OPTIONS", "TRACE", "CONNECT", "PATCH"]

/-- Source `is_HTTP_method`: a string is a valid method iff it is one of the
nine literals. -/
def is_HTTP_method (m : String) : Bool :=
  httpMethods.contains m

/-- Source `UrlFilter = Union[str, re.Pattern]`. A compiled pattern is embedded
as the predicate `url ↦ (pattern.match(url) is not None)`. -/
inductive UrlFilter where
  | str : String → UrlFilter
  | pattern : (String → Bool) → UrlFilter

/-- Python `url.startswith(p)`: the characters of `p` are a prefix of the
characters of `url`. -/
def startswith (url p : String) : Bool :=
  List.isPrefixOf p.data url.data

/-- URL test of one filter, as in the body of `is_limited`: a plain string is
an exact-prefix test `url.startswith(pattern)`, a compiled pattern is its
anchored-at-0 match test. -/
def filterMatches : UrlFilter → String → Bool
  | UrlFilter.str p, url => startswith url p
  | UrlFilter.pattern f, url => f url

/-- Method test of one filter: `method_filter is None or method == method_filter`. -/
def methodFilterMatches (mf : Option String) (m : String) : Bool :=
  match mf with
  | none => true
  | some mm => m == mm

/-- One rule of the filter list matches a request when its method part and its
URL part both match. -/
def ruleMatches (mf : Option String) (uf : UrlFilter) (m url : String) : Bool :=
  methodFilterMatches mf m && filterMatches uf url

/-- The session state: the mutable attributes of `ThrottledClientSession`.
`queue_size` is the number of admission tokens currently in `_queue`. -/
structure Session where
  rate_limit : ℚ
  start_time : ℚ
  count : ℕ
  errors : ℕ
  limit_filtered : Bool
  filters : List (Option String × UrlFilter)
  queue_size : ℕ

/-- The loop of `is_limited` over `self._filters`, in registration order:
on the first rule whose method part matches and whose URL part matches,
return `limit_filtered`; if the loop ends, return `not limit_filtered`. -/
def isLimitedLoop (fs : List (Option String × UrlFilter)) (m url : String)
    (lf : Bool) : Bool :=
  match fs with
  | [] => !lf
  | (mf, uf) :: rest =>
    if methodFilterMatches mf m then
      if filterMatches uf url then lf else isLimitedLoop rest m url lf
    else isLimitedLoop rest m url lf

/-- Source `is_limited(method, url)`. The body runs inside `try`: a rate limit
of `0` returns `False` at once; an unrecognized method raises `ValueError`,
which the handler logs before the trailing `return True`; otherwise the filter
loop decides. -/
def is_limited (s : Session) (m url : String) : Bool :=
  if s.rate_limit = 0 then false
  else if is_HTTP_method m then isLimitedLoop s.filters m url s.limit_filtered
  else true

/-- An HTTP response as consumed by `_request`: the code reads only `resp.ok`. -/
structure ClientResponse where
  ok : Bool

/-- The admission step of `_request`: when `is_limited` holds, one token is
taken from the queue (`await self._queue.get()`); otherwise the queue is not
touched. -/
def request_throttle (s : Session) (m url : String) : Session :=
  if is_limited s m url then { s with queue_size := s.queue_size - 1 } else s

/-- The accounting tail of `_request`: `_count += 1` unconditionally, then
`_errors += 1` iff `not resp.ok`. -/
def record_response (s : Session) (resp : ClientResponse) : Session :=
  { s with
    count := s.count + 1
    errors := if resp.ok then s.errors else s.errors + 1 }

/-- Source `_request`: admission control, then the underlying call (whose
outcome is passed in as `outcome`), then accounting. A raised transport
exception (`Except.error`) skips the accounting and propagates. -/
def request_model (s : Session) (m url : String)
    (outcome : Except String ClientResponse) :
    Except String ClientResponse × Session :=
  let s1 := request_throttle s m url
  match outcome with
  | Except.error e => (Except.error e, s1)
  | Except.ok resp => (Except.ok resp, record_response s1 resp)

/-- Source `rate` property: `self._count / (time.time() - self._start_time)`.
There is no guard on the denominator; a zero elapsed time raises
`ZeroDivisionError`, modelled as `none`. -/
def rateValue (count : ℕ) (start_time now : ℚ) : Option ℚ :=
  if now - start_time = 0 then none
  else some ((count : ℚ) / (now - start_time))

/-- The `rate` property on a session state, at query time `now`. -/
def Session.rateAt (s : Session) (now : ℚ) : Option ℚ :=
  rateValue s.count s.start_time now

/-- The dictionary returned by the `stats_dict` property. -/
structure StatsDict where
  rate : ℚ
  rate_limit : ℚ
  count : ℕ
  errors : ℕ

/-- Source `stats_dict` property, at query time `now`. Reading the `rate`
property can raise `ZeroDivisionError` at zero elapsed time; the raise
propagates out of `stats_dict`, modelled by `none`. -/
def stats_dict (s : Session) (now : ℚ) : Option StatsDict :=
  match s.rateAt now with
  | none => none
  | some r =>
    some { rate := r
           rate_limit := s.rate_limit
           count := s.count
           errors := s.errors }

/-- Source `reset_counters`: evaluate the `stats_dict` snapshot first. If that
read raises (zero elapsed time), the exception propagates before any field is
assigned, leaving the session unchanged; otherwise `_start_time = time.time()`
and `_count = 0` are assigned and the snapshot is returned. -/
def reset_counters (s : Session) (now : ℚ) : Option StatsDict × Session :=
  match stats_dict s now with
  | none => (none, s)
  | some res => (some res, { s with start_time := now, count := 0 })

/-- A constructor filter argument: either a bare `UrlFilter` or a
`(method, UrlFilter)` pair, as in the `filters` parameter of `__init__`. -/
inductive FilterArg where
  | bare : UrlFilter → FilterArg
  | pair : Option String → UrlFilter → FilterArg

/-- Source `add_filter`: raises `ValueError` when the method is neither `None`
nor a recognized HTTP method, else appends the rule. -/
def add_filter (fs : List (Option String × UrlFilter)) (uf : UrlFilter)
    (m : Option String) : Except String (List (Option String × UrlFilter)) :=
  match m with
  | none => Except.ok (fs ++ [(none, uf)])
  | some mm =>
    if is_HTTP_method mm then Except.ok (fs ++ [(some mm, uf)])
    else Except.error "ValueError: method is not None or a valid HTTP method"

/-- The filter-registration loop of `__init__`: each argument is split into a
method and a URL filter and passed to `add_filter`; a raised `ValueError`
aborts construction. -/
def initFilters : List FilterArg → List (Option String × UrlFilter) →
    Except String (List (Option String × UrlFilter))
  | [], acc => Except.ok acc
  | a :: rest, acc =>
    let p : Option String × UrlFilter :=
      match a with
      | FilterArg.bare uf => (none, uf)
      | FilterArg.pair mm uf => (mm, uf)
    match add_filter acc p.2 p.1 with
    | Except.error e => Except.error e
    | Except.ok acc2 => initFilters rest acc2

/-- Source `__init__` at time `now`. The `assert` statements check only the
Python types of the arguments (always satisfied in this typed model); the only
failure path is a filter argument with an invalid method. No condition on the
sign of `rate_limit` is checked. -/
def init (now : ℚ) (rate_limit : ℚ) (filters : List FilterArg)
    (limit_filtered : Bool) : Except String Session :=
  match initFilters filters [] with
  | Except.error e => Except.error e
  | Except.ok fs =>
    Except.ok
      { rate_limit := rate_limit
        start_time := now
        count := 0
        errors := 0
        limit_filtered := limit_filtered
        filters := fs
        queue_size := 0 }

/-- Whether an `Except` value is a success, as `init ... succeeded`. -/
def exceptOk {ε α : Type} : Except ε α → Bool
  | Except.ok _ => true
  | Except.error _ => false

/-- Source constant `_LOG_FILLER = 20`, the regime threshold. -/
def LOG_FILLER : ℚ := 20

/-- The queue capacity computed in `__init__`: `_qlen = 1`, overwritten with
`ceil(log(rate_limit))` when `rate_limit > _LOG_FILLER`. -/
noncomputable def qlen (rate_limit : ℚ) : ℕ :=
  if LOG_FILLER < rate_limit then ⌈Real.log (rate_limit : ℝ)⌉₊ else 1

/-- An operation on the bounded admission queue. -/
inductive QueueOp where
  | put
  | get

/-- One step of the bounded `asyncio.Queue(maxsize)`: a put on a full queue
blocks (the size does not change until room appears), a get on an empty queue
blocks likewise. -/
def queueStep (maxsize : ℕ) (n : ℕ) : QueueOp → ℕ
  | QueueOp.put => if n < maxsize then n + 1 else n
  | QueueOp.get => if 0 < n then n - 1 else n

/-- The queue size after a sequence of put and get operations starting from
size `n`. -/
def queueRun (maxsize : ℕ) (ops : List QueueOp) (n : ℕ) : ℕ :=
  ops.foldl (queueStep maxsize) n

/-- The grace timeout passed to `wait_for` in `close`: `timeout=0.5`. -/
def CLOSE_GRACE_TIMEOUT : ℚ := 1 / 2

/-- The outcome of awaiting the cancelled filler task in `close`: it either
finishes, or the bounded wait raises `TimeoutError`, or awaiting the cancelled
task raises `CancelledError`. -/
inductive AwaitError where
  | timeoutError
  | cancelledError

/-- The `await wait_for(self._fillerTask, timeout=0.5)` expression: `none`
models a normal return, `some e` a raised exception. -/
def wait_for_outcome : Option AwaitError → Except AwaitError Unit
  | none => Except.ok ()
  | some e => Except.error e

/-- Source `close`: when a filler task exists it is cancelled and awaited under
the grace timeout; `TimeoutError` and `CancelledError` are both caught and
logged, so `close` completes normally in every case. The argument is `none`
when `_fillerTask is None`, else the outcome of the awaited task. -/
def close_model (fillerTask : Option (Option AwaitError)) :
    Except AwaitError Unit :=
  match fillerTask with
  | none => Except.ok ()
  | some aw =>
    match wait_for_outcome aw with
    | Except.ok () => Except.ok ()
    | Except.error AwaitError.timeoutError => Except.ok ()
    | Except.error AwaitError.cancelledError => Except.ok ()

/-! ## Helper lemmas -/

/-- The filter loop returns `lf` exactly when some rule matches, and the rule
that decides is the first match in registration order. -/
theorem isLimitedLoop_eq_find (fs : List (Option String × UrlFilter))
    (m url : String) (lf : Bool) :
    isLimitedLoop fs m url lf =
      match fs.find? (fun p => ruleMatches p.1 p.2 m url) with
      | some _ => lf
      | none => !lf := by
  induction fs with
  | nil => rfl
  | cons hd tl ih =>
    obtain ⟨mf, uf⟩ := hd
    cases hm : methodFilterMatches mf m <;> cases hu : filterMatches uf url <;>
      simp [isLimitedLoop, List.find?, ruleMatches, hm, hu, ih]

/-- One queue step preserves the capacity bound. -/
theorem queueStep_le (maxsize n : ℕ) (hn : n ≤ maxsize) (op : QueueOp) :
    queueStep maxsize n op ≤ maxsize := by
  cases op <;> simp only [queueStep] <;> split <;> omega

/-- Any run of queue operations preserves the capacity bound. -/
theorem queueRun_le (maxsize : ℕ) (ops : List QueueOp) :
    ∀ n, n ≤ maxsize → queueRun maxsize ops n ≤ maxsize := by
  induction ops with
  | nil => intro n hn; exact hn
  | cons op ops ih => intro n hn; exact ih _ (queueStep_le maxsize n hn op)

/-- Capacity for a rate of 50 requests per second is `⌈ln 50⌉ = 4`. -/
theorem qlen_fifty : qlen 50 = 4 := by
  have h1 : LOG_FILLER < (50 : ℚ) := by norm_num [LOG_FILLER]
  rw [qlen, if_pos h1]
  have hcast : (((50 : ℚ)) : ℝ) = 50 := by norm_num
  rw [hcast, Nat.ceil_eq_iff (by norm_num : (4 : ℕ) ≠ 0)]
  constructor
  · have h3 : ((4 - 1 : ℕ) : ℝ) = 3 := by norm_num
    rw [h3, Real.lt_log_iff_exp_lt (by norm_num : (0 : ℝ) < 50)]
    have he : Real.exp 1 ^ (3 : ℕ) = Real.exp 3 := by
      rw [Real.exp_one_pow]; norm_num
    have hp : Real.exp 1 ^ (3 : ℕ) < (2.7182818286 : ℝ) ^ (3 : ℕ) :=
      pow_lt_pow_left₀ Real.exp_one_lt_d9 (Real.exp_pos 1).le (by norm_num)
    have hc : (2.7182818286 : ℝ) ^ (3 : ℕ) < 50 := by norm_num
    linarith [he, hp, hc]
  · have h4 : ((4 : ℕ) : ℝ) = 4 := by norm_num
    rw [h4, Real.log_le_iff_le_exp (by norm_num : (0 : ℝ) < 50)]
    have he : Real.exp 1 ^ (4 : ℕ) = Real.exp 4 := by
      rw [Real.exp_one_pow]; norm_num
    have hp : (2.7182818283 : ℝ) ^ (4 : ℕ) < Real.exp 1 ^ (4 : ℕ) :=
      pow_lt_pow_left₀ Real.exp_one_gt_d9 (by norm_num) (by norm_num)
    have hc : (50 : ℝ) < (2.7182818283 : ℝ) ^ (4 : ℕ) := by norm_num
    linarith [he, hp, hc]

/-- A concrete session used to instantiate the claims: rate 10, whitelist mode
`limit_filtered = true`, with the two rules of the determinism example. -/
def exampleSession : Session :=
  { rate_limit := 10
    start_time := 0
    count := 0
    errors := 0
    limit_filtered := true
    filters := [(some "GET", UrlFilter.str "/a"), (none, UrlFilter.str "/a/b")]
    queue_size := 0 }

/-- A concrete session with the rate limiter disabled. -/
def zeroRateSession : Session :=
  { rate_limit := 0
    start_time := 0
    count := 3
    errors := 1
    limit_filtered := true
    filters := [(none, UrlFilter.str "")]
    queue_size := 0 }

/-- A concrete session with nonzero counters, started at time 7, used to
instantiate the reset claims. -/
def resetExampleSession : Session :=
  { rate_limit := 10
    start_time := 7
    count := 3
    errors := 2
    limit_filtered := false
    filters := []
    queue_size := 1 }

/-- A successful `stats_dict` read reports the current request count. -/
theorem stats_dict_count (s : Session) (t : ℚ) (d : StatsDict)
    (h : stats_dict s t = some d) : d.count = s.count := by
  unfold stats_dict at h
  cases hr : s.rateAt t <;> rw [hr] at h
  · exact absurd h (by simp)
  · injection h with h2
    rw [← h2]

/-! ## Claims -/

/-- Claim C1: for a session with a positive rate limit and a recognized HTTP
method, `is_limited` scans the filter rules in registration order; a rule
matches when its method is unset or equal to the request method and its URL
part matches (string rules by exact prefix, compiled rules anchored at
position 0); the first matching rule decides with `limit_filtered`, and with
no match the result is the negation of `limit_filtered`. With rules
`[(GET, "/a"), (None, "/a/b")]` and `limit_filtered = true`, a GET to
`"/a/b"` is decided `true` by the first rule. -/
theorem C1_first_match_decides :
    (∀ (s : Session) (m url : String), 0 < s.rate_limit →
      is_HTTP_method m = true →
      is_limited s m url =
        match s.filters.find? (fun p => ruleMatches p.1 p.2 m url) with
        | some _ => s.limit_filtered
        | none => !s.limit_filtered) ∧
    exampleSession.filters.find? (fun p => ruleMatches p.1 p.2 "GET" "/a/b") =
      some (some "GET", UrlFilter.str "/a") ∧
    is_limited exampleSession "GET" "/a/b" = true := by
  refine ⟨?_, rfl, rfl⟩
  intro s m url hrate hm
  simp [is_limited, hrate.ne', hm, isLimitedLoop_eq_find]

/-- Witness for C1 at a concrete input: a POST to an unmatched URL. -/
theorem C1_first_match_decides_witness :
    is_limited exampleSession "POST" "/c" =
      match exampleSession.filters.find?
          (fun p => ruleMatches p.1 p.2 "POST" "/c") with
      | some _ => exampleSession.limit_filtered
      | none => !exampleSession.limit_filtered :=
  C1_first_match_decides.1 exampleSession "POST" "/c"
    (by norm_num [exampleSession]) (by decide)

/-- Claim C2: with a positive rate limit, an unrecognized method string makes
`is_limited` return `true` (the raised `ValueError` is caught and logged, and
the trailing `return True` treats the request as throttled); no exception
reaches the caller and no unrecognized method is exempted. -/
theorem C2_invalid_method_fails_safe :
    ∀ (s : Session) (m url : String), 0 < s.rate_limit →
      is_HTTP_method m = false → is_limited s m url = true := by
  intro s m url hrate hm
  simp [is_limited, hrate.ne', hm]

/-- Witness for C2 at a concrete invalid method. -/
theorem C2_invalid_method_fails_safe_witness :
    is_limited exampleSession "FROB" "/a" = true :=
  C2_invalid_method_fails_safe exampleSession "FROB" "/a"
    (by norm_num [exampleSession]) (by decide)

/-- Claim C3: with `rate_limit = 0`, `is_limited` returns `false` for every
method string (recognized or not) and every URL, whatever the filter list and
`limit_filtered`; consequently `_request` never takes a token from the
admission queue. -/
theorem C3_zero_rate_disables_throttling :
    ∀ (s : Session) (m url : String) (outcome : Except String ClientResponse),
      s.rate_limit = 0 →
      is_limited s m url = false ∧
      (request_model s m url outcome).2.queue_size = s.queue_size := by
  intro s m url outcome h0
  have hlim : is_limited s m url = false := by simp [is_limited, h0]
  refine ⟨hlim, ?_⟩
  cases outcome <;> simp [request_model, request_throttle, hlim, record_response]

/-- Witness for C3 at a concrete zero-rate session with a catch-all filter. -/
theorem C3_zero_rate_disables_throttling_witness :
    is_limited zeroRateSession "FOO" "/x" = false ∧
    (request_model zeroRateSession "FOO" "/x"
        (Except.ok { ok := true })).2.queue_size = zeroRateSession.queue_size :=
  C3_zero_rate_disables_throttling zeroRateSession "FOO" "/x"
    (Except.ok { ok := true }) rfl

/-- Claim C4: the queue capacity is `1` for rates up to the threshold of 20
and `⌈ln rate⌉` above it, hence `4` at rate 50; and, starting empty, no run of
put and get operations on the bounded queue ever exceeds the capacity. -/
theorem C4_qlen_and_queue_bound :
    (∀ r : ℚ, r ≤ LOG_FILLER → qlen r = 1) ∧
    qlen 50 = 4 ∧
    (∀ (r : ℚ) (ops : List QueueOp), queueRun (qlen r) ops 0 ≤ qlen r) := by
  refine ⟨fun r h => ?_, qlen_fifty, fun r ops => queueRun_le _ ops 0 (Nat.zero_le _)⟩
  rw [qlen, if_neg (not_lt.mpr h)]

/-- Witness for C4 at the concrete rate 5. -/
theorem C4_qlen_and_queue_bound_witness : qlen 5 = 1 :=
  C4_qlen_and_queue_bound.1 5 (by norm_num [LOG_FILLER])

/-- Claim C5: when the underlying call returns a response, `_request`
increments the request counter by exactly one and increments the error counter
exactly when the response is not ok, and hands the response back unchanged;
when the underlying call raises, both counters are unchanged and the exception
propagates. -/
theorem C5_request_accounting :
    ∀ (s : Session) (m url : String) (resp : ClientResponse) (e : String),
      ((request_model s m url (Except.ok resp)).2.count = s.count + 1 ∧
       (request_model s m url (Except.ok resp)).2.errors =
         (if resp.ok then s.errors else s.errors + 1) ∧
       (request_model s m url (Except.ok resp)).1 = Except.ok resp) ∧
      ((request_model s m url (Except.error e)).1 = Except.error e ∧
       (request_model s m url (Except.error e)).2.count = s.count ∧
       (request_model s m url (Except.error e)).2.errors = s.errors) := by
  intro s m url resp e
  cases h : is_limited s m url <;>
    simp [request_model, request_throttle, record_response, h]

/-- Claim C6, counterexample: when `reset_counters` runs at a query time equal
to the recorded start time, the `stats_dict` snapshot raises
`ZeroDivisionError` from the unguarded rate division, so no snapshot is
returned and no field is reset: the count stays 3 instead of becoming 0. -/
theorem C6_zero_elapsed_counterexample :
    (reset_counters resetExampleSession 7).1 = none ∧
    (reset_counters resetExampleSession 7).2 = resetExampleSession ∧
    resetExampleSession.count = 3 := by
  have hs : stats_dict resetExampleSession 7 = none := by
    unfold stats_dict Session.rateAt rateValue
    rw [if_pos (by norm_num [resetExampleSession])]
  refine ⟨?_, ?_, rfl⟩ <;> simp [reset_counters, hs]

/-- Claim C6 as amended: whenever the elapsed time is nonzero,
`reset_counters` returns the pre-reset snapshot computed before any field is
modified, and afterwards the start time is `now` and the count is 0, so a
`stats_dict` read of the post-state that returns reports a count of 0; at zero
elapsed time the `ZeroDivisionError` raised inside the snapshot propagates and
no field is modified. -/
theorem C6_reset_amended :
    ∀ (s : Session) (now t : ℚ),
      (now - s.start_time ≠ 0 →
        (reset_counters s now).1 =
          some { rate := (s.count : ℚ) / (now - s.start_time)
                 rate_limit := s.rate_limit
                 count := s.count
                 errors := s.errors } ∧
        (reset_counters s now).2.start_time = now ∧
        (reset_counters s now).2.count = 0 ∧
        (∀ d : StatsDict,
          stats_dict (reset_counters s now).2 t = some d → d.count = 0)) ∧
      (now - s.start_time = 0 → reset_counters s now = (none, s)) := by
  intro s now t
  constructor
  · intro h
    have hs : stats_dict s now =
        some { rate := (s.count : ℚ) / (now - s.start_time)
               rate_limit := s.rate_limit
               count := s.count
               errors := s.errors } := by
      unfold stats_dict Session.rateAt rateValue
      rw [if_neg h]
    refine ⟨?_, ?_, ?_, fun d hd => ?_⟩
    · simp [reset_counters, hs]
    · simp [reset_counters, hs]
    · simp [reset_counters, hs]
    · have hc := stats_dict_count _ t d hd
      rw [hc]
      simp [reset_counters, hs]
  · intro h
    have hs : stats_dict s now = none := by
      unfold stats_dict Session.rateAt rateValue
      rw [if_pos h]
    simp [reset_counters, hs]

/-- Witness for the amended C6, at the concrete session started at 7, reset at
9 and read again at 11. -/
theorem C6_reset_amended_witness :
    (reset_counters resetExampleSession 9).1 =
      some { rate := ((3 : ℕ) : ℚ) / ((9 : ℚ) - 7)
             rate_limit := 10
             count := 3
             errors := 2 } ∧
    (reset_counters resetExampleSession 9).2.start_time = 9 ∧
    (reset_counters resetExampleSession 9).2.count = 0 ∧
    (∀ d : StatsDict,
      stats_dict (reset_counters resetExampleSession 9).2 11 = some d →
        d.count = 0) :=
  (C6_reset_amended resetExampleSession 9 11).1 (by norm_num [resetExampleSession])

/-- Claim C7, counterexample: the source computes
`count / (now - start_time)` with no epsilon guard, so at `now = start_time`
with `count = 1` the computation raises `ZeroDivisionError` (modelled `none`);
no fixed positive epsilon makes the claimed formula agree with the code. -/
theorem C7_rate_epsilon_counterexample :
    ¬ ∃ ε : ℚ, 0 < ε ∧ ∀ (c : ℕ) (start now : ℚ),
      rateValue c start now = some ((c : ℚ) / max (now - start) ε) := by
  rintro ⟨ε, hε, h⟩
  have h1 := h 1 0 0
  simp [rateValue] at h1

/-- Claim C7 as amended: the rate is `count / (now - start_time)` computed
directly; when the elapsed time is nonzero this value is returned, and when
the query time equals the start time the division raises (modelled `none`)
rather than being guarded by an epsilon. -/
theorem C7_rate_amended :
    ∀ (c : ℕ) (start now : ℚ),
      (now - start ≠ 0 →
        rateValue c start now = some ((c : ℚ) / (now - start))) ∧
      (now - start = 0 → rateValue c start now = none) := by
  intro c start now
  constructor
  · intro h
    rw [rateValue, if_neg h]
  · intro h
    rw [rateValue, if_pos h]

/-- Witness for the amended C7 at concrete inputs. -/
theorem C7_rate_amended_witness :
    rateValue 2 0 1 = some (((2 : ℕ) : ℚ) / ((1 : ℚ) - 0)) ∧
    rateValue 3 5 5 = none :=
  ⟨(C7_rate_amended 2 0 1).1 (by norm_num), (C7_rate_amended 3 5 5).2 (by norm_num)⟩

/-- Claim C8, counterexample: construction with the negative rate limit `-5`
succeeds; the constructor checks only argument types and filter methods, so no
configuration error is raised for a negative rate. -/
theorem C8_negative_rate_counterexample :
    exceptOk (init 0 (-5) [] false) = true := rfl

/-- Claim C8 as amended: construction fails fast only on a filter whose method
part is neither unset nor a recognized HTTP method; the sign of the rate limit
is never validated, and a session with any rate limit, negative included, is
constructed successfully when the filter list is well formed. -/
theorem C8_construction_validation_amended :
    ∀ (now r : ℚ) (lf : Bool),
      exceptOk (init now r [] lf) = true ∧
      (∀ uf : UrlFilter,
        exceptOk (init now r [FilterArg.pair (some "FOO") uf] lf) = false) :=
  fun _ _ _ => ⟨rfl, fun _ => rfl⟩

/-- Claim C9: `close` cancels the filler task and awaits it under the grace
timeout of 0.5 seconds; a `TimeoutError` and the expected `CancelledError` are
both caught (and logged), so `close` completes normally for every outcome of
the await, and also when no filler task exists. -/
theorem C9_close_swallows_timeout_and_cancel :
    CLOSE_GRACE_TIMEOUT = 1 / 2 ∧
    ∀ t : Option (Option AwaitError), close_model t = Except.ok () := by
  refine ⟨rfl, ?_⟩
  intro t
  rcases t with _ | (_ | e)
  · rfl
  · rfl
  · cases e <;> rfl

/-- Claim C10: `reset_counters` changes only the start time and the request
count; the error counter, the configured rate limit, the `limit_filtered`
flag, the filter list and the admission queue are unchanged. -/
theorem C10_reset_frame :
    ∀ (s : Session) (now : ℚ),
      (reset_counters s now).2.errors = s.errors ∧
      (reset_counters s now).2.rate_limit = s.rate_limit ∧
      (reset_counters s now).2.limit_filtered = s.limit_filtered ∧
      (reset_counters s now).2.filters = s.filters ∧
      (reset_counters s now).2.queue_size = s.queue_size := by
  intro s now
  cases h : stats_dict s now <;> simp [reset_counters, h]
